import Mathlib

/-!
Shallow embedding of src/AutoDiag/native/j2534_native_probe.cpp.

The program is a single linear sequence of foreign calls.  We model the
observable behaviour of the operating system and of the loaded driver
library as an environment record, and the whole of main as a pure
function from that environment to a run result recording the exit code,
the lines written to each stream, the structured status report, the
number of FreeLibrary calls, and which driver entry points were invoked.
-/

namespace J2534Probe

/-- The failure stage identifiers that can appear in a status report. -/
inductive Stage
  | load
  | symbols
  | opn
  | close
deriving DecidableEq, Repr

/-- The stage string as printed by the program. -/
def stageName : Stage → String
  | Stage.load => "load"
  | Stage.symbols => "symbols"
  | Stage.opn => "open"
  | Stage.close => "close"

/-- Structured form of the single status report a run emits. -/
inductive Report
  | ok (message : String)
  | error (stage : Stage) (code : Option Int) (message : String)
deriving DecidableEq, Repr

/-- Exact rendering of a report to the JSON line the program prints,
mirroring the string concatenations in the source branch by branch. -/
def render : Report → String
  | Report.ok msg =>
      "\x7b\"status\":\"ok\",\"message\":\"" ++ msg ++ "\"\x7d"
  | Report.error st none msg =>
      "\x7b\"status\":\"error\",\"stage\":\"" ++ stageName st
        ++ "\",\"message\":\"" ++ msg ++ "\"\x7d"
  | Report.error st (some c) msg =>
      "\x7b\"status\":\"error\",\"stage\":\"" ++ stageName st
        ++ "\",\"code\":" ++ toString c ++ ",\"message\":\"" ++ msg ++ "\"\x7d"

/-- Observable behaviour of the platform and the driver library for one run:
the command line, whether LoadLibraryA succeeds, the GetLastError value and
FormatMessageA outcome after a failed load, which of the three exports
GetProcAddress resolves, the return values of PassThruOpen and PassThruClose,
and the text PassThruGetLastError deposits in the caller's buffer. -/
structure Env where
  argv : List String
  loadOk : Bool
  winLastErr : Nat
  fmtSize : Nat
  fmtBufValid : Bool
  fmtMsg : String
  hasOpen : Bool
  hasClose : Bool
  hasGetLastError : Bool
  openStatus : Int
  closeStatus : Int
  driverErrText : String
deriving DecidableEq, Repr

/-- Embedding of the static helper GetLastWinError: returns "none" when no
platform error is recorded, the FormatMessageA text when translation
succeeds, and "unknown" otherwise. -/
def GetLastWinError (e : Env) : String :=
  if e.winLastErr = 0 then "none"
  else if e.fmtSize ≠ 0 ∧ e.fmtBufValid = true then e.fmtMsg
  else "unknown"

/-- Everything one run makes observable: process exit code, the lines
written to each stream, the structured report (if any), how many times
FreeLibrary was called, and which driver entry points were invoked. -/
structure RunResult where
  exitCode : Nat
  stdoutLines : List String
  stderrLines : List String
  report : Option Report
  freeLibraryCalls : Nat
  openCalled : Bool
  closeCalled : Bool
  getLastErrorCalled : Bool
deriving DecidableEq, Repr

/-- The plain usage line printed on invalid invocation. -/
def usageLine : String := "usage: j2534_native_probe <path-to-j2534-dll>"

/-- Embedding of main: the strictly sequential usage-check, load, resolve,
open, close pipeline of the source, branch for branch. -/
def probeMain (e : Env) : RunResult :=
  if e.argv.length < 2 then
    { exitCode := 2, stdoutLines := [], stderrLines := [usageLine],
      report := none, freeLibraryCalls := 0,
      openCalled := false, closeCalled := false, getLastErrorCalled := false }
  else if e.loadOk = false then
    let r := Report.error Stage.load none (GetLastWinError e)
    { exitCode := 1, stdoutLines := [], stderrLines := [render r],
      report := some r, freeLibraryCalls := 0,
      openCalled := false, closeCalled := false, getLastErrorCalled := false }
  else if (e.hasOpen && e.hasClose && e.hasGetLastError) = false then
    let r := Report.error Stage.symbols none "Required J2534 exports missing"
    { exitCode := 1, stdoutLines := [], stderrLines := [render r],
      report := some r, freeLibraryCalls := 1,
      openCalled := false, closeCalled := false, getLastErrorCalled := false }
  else if e.openStatus ≠ 0 then
    let r := Report.error Stage.opn (some e.openStatus) e.driverErrText
    { exitCode := 1, stdoutLines := [], stderrLines := [render r],
      report := some r, freeLibraryCalls := 1,
      openCalled := true, closeCalled := false, getLastErrorCalled := true }
  else if e.closeStatus ≠ 0 then
    let r := Report.error Stage.close (some e.closeStatus) "PassThruClose failed"
    { exitCode := 1, stdoutLines := [], stderrLines := [render r],
      report := some r, freeLibraryCalls := 1,
      openCalled := true, closeCalled := true, getLastErrorCalled := false }
  else
    let r := Report.ok "J2534 DLL probe successful"
    { exitCode := 0, stdoutLines := [render r], stderrLines := [],
      report := some r, freeLibraryCalls := 1,
      openCalled := true, closeCalled := true, getLastErrorCalled := false }

/-- Whether an emitted report carries a numeric code field. -/
def hasCodeField : Option Report → Bool
  | some (Report.error _ (some _) _) => true
  | _ => false

/-- The stage named by an emitted report, when it is an error report. -/
def reportStage : Option Report → Option Stage
  | some (Report.error st _ _) => some st
  | _ => none

/-- A fully well-behaved environment: two arguments, loadable library,
all exports present, open and close both return 0. -/
def goodEnv : Env :=
  { argv := ["j2534_native_probe", "driver.dll"], loadOk := true,
    winLastErr := 0, fmtSize := 0, fmtBufValid := false, fmtMsg := "",
    hasOpen := true, hasClose := true, hasGetLastError := true,
    openStatus := 0, closeStatus := 0, driverErrText := "" }

/-- An environment whose close call fails with code 7. -/
def closeFailEnv : Env :=
  { goodEnv with closeStatus := 7 }

/-- An environment whose open call fails with code 5. -/
def openFailEnv : Env :=
  { goodEnv with openStatus := 5, driverErrText := "device not connected" }

/-- An environment missing the PassThruClose export. -/
def noSymEnv : Env :=
  { goodEnv with hasClose := false }

/-- An environment where the library fails to load with no recorded error. -/
def loadFailEnv : Env :=
  { goodEnv with loadOk := false }

/-- An environment invoked with no path argument. -/
def noArgEnv : Env :=
  { goodEnv with argv := ["j2534_native_probe"] }

/-- C1: once the library is successfully loaded (which requires passing the
argument check), FreeLibrary is called exactly once on every exit path --
symbol failure, open failure, close failure, and success -- never zero
times and never twice. -/
theorem handle_released_exactly_once (e : Env)
    (h1 : 2 ≤ e.argv.length) (h2 : e.loadOk = true) :
    (probeMain e).freeLibraryCalls = 1 := by
  unfold probeMain
  rw [if_neg (by omega), if_neg (by simp [h2])]
  split
  · rfl
  · split
    · rfl
    · split
      · rfl
      · rfl

/-- Witness for C1 at a concrete loaded environment. -/
theorem handle_released_exactly_once_witness :
    2 ≤ goodEnv.argv.length ∧ goodEnv.loadOk = true ∧
      (probeMain goodEnv).freeLibraryCalls = 1 :=
  ⟨by decide, rfl, handle_released_exactly_once goodEnv (by decide) rfl⟩

/-- C2: when the library loads, all three symbols resolve, and both open and
close return 0, the run writes exactly the one success line to standard
output, nothing to standard error, and exits with code 0. -/
theorem success_run (e : Env)
    (h1 : 2 ≤ e.argv.length) (h2 : e.loadOk = true)
    (h3 : e.hasOpen = true) (h4 : e.hasClose = true) (h5 : e.hasGetLastError = true)
    (h6 : e.openStatus = 0) (h7 : e.closeStatus = 0) :
    (probeMain e).stdoutLines =
      ["\x7b\"status\":\"ok\",\"message\":\"J2534 DLL probe successful\"\x7d"] ∧
    (probeMain e).stderrLines = [] ∧
    (probeMain e).exitCode = 0 := by
  unfold probeMain
  rw [if_neg (by omega), if_neg (by simp [h2]),
    if_neg (by simp [h3, h4, h5]), if_neg (by simp [h6]), if_neg (by simp [h7])]
  exact ⟨rfl, rfl, rfl⟩

/-- Witness for C2 at a concrete well-behaved environment. -/
theorem success_run_witness :
    (probeMain goodEnv).stdoutLines =
      ["\x7b\"status\":\"ok\",\"message\":\"J2534 DLL probe successful\"\x7d"] ∧
    (probeMain goodEnv).stderrLines = [] ∧
    (probeMain goodEnv).exitCode = 0 :=
  success_run goodEnv (by decide) rfl rfl rfl rfl rfl rfl

/-- C3 counterexample: a run whose close call fails emits a report with
stage close that does carry a numeric code field, refuting the claim that
the code field appears only for the open stage. -/
theorem code_field_on_close_stage :
    reportStage (probeMain closeFailEnv).report = some Stage.close ∧
    hasCodeField (probeMain closeFailEnv).report = true := by
  exact ⟨rfl, rfl⟩

/-- C3 amended: the numeric code field appears in the emitted report exactly
when the failure stage is open or close; load reports, symbols reports and
the success report carry no code field. -/
theorem code_field_iff_open_or_close (e : Env) :
    hasCodeField (probeMain e).report = true ↔
      (reportStage (probeMain e).report = some Stage.opn ∨
       reportStage (probeMain e).report = some Stage.close) := by
  unfold probeMain
  split
  · simp [hasCodeField, reportStage]
  · split
    · simp [hasCodeField, reportStage]
    · split
      · simp [hasCodeField, reportStage]
      · split
        · simp [hasCodeField, reportStage]
        · split
          · simp [hasCodeField, reportStage]
          · simp [hasCodeField, reportStage]

/-- C4: when the library loads, the symbols resolve, and the open call
returns non-zero, the run calls the get-last-error entry point, writes to
standard error exactly the open-stage report carrying the raw open status
as its code and the driver-supplied text as its message, releases the
handle once, exits with code 1, and never calls the close entry point. -/
theorem open_failure_run (e : Env)
    (h1 : 2 ≤ e.argv.length) (h2 : e.loadOk = true)
    (h3 : e.hasOpen = true) (h4 : e.hasClose = true) (h5 : e.hasGetLastError = true)
    (h6 : e.openStatus ≠ 0) :
    (probeMain e).stderrLines =
      [render (Report.error Stage.opn (some e.openStatus) e.driverErrText)] ∧
    (probeMain e).stdoutLines = [] ∧
    (probeMain e).getLastErrorCalled = true ∧
    (probeMain e).freeLibraryCalls = 1 ∧
    (probeMain e).exitCode = 1 ∧
    (probeMain e).closeCalled = false := by
  unfold probeMain
  rw [if_neg (by omega), if_neg (by simp [h2]),
    if_neg (by simp [h3, h4, h5]), if_pos h6]
  exact ⟨rfl, rfl, rfl, rfl, rfl, rfl⟩

/-- Witness for C4 at a concrete environment whose open call returns 5. -/
theorem open_failure_run_witness :
    openFailEnv.openStatus ≠ 0 ∧
    (probeMain openFailEnv).stderrLines =
      [render (Report.error Stage.opn (some openFailEnv.openStatus)
        openFailEnv.driverErrText)] ∧
    (probeMain openFailEnv).stdoutLines = [] ∧
    (probeMain openFailEnv).getLastErrorCalled = true ∧
    (probeMain openFailEnv).freeLibraryCalls = 1 ∧
    (probeMain openFailEnv).exitCode = 1 ∧
    (probeMain openFailEnv).closeCalled = false :=
  ⟨by decide, open_failure_run openFailEnv (by decide) rfl rfl rfl rfl (by decide)⟩

/-- C5: when the open call returns 0 and the close call returns non-zero,
the run writes to standard error exactly the close-stage report carrying
the raw close status as its code and the fixed literal message, and exits
with code 1; no driver detail text is fetched on this path. -/
theorem close_failure_run (e : Env)
    (h1 : 2 ≤ e.argv.length) (h2 : e.loadOk = true)
    (h3 : e.hasOpen = true) (h4 : e.hasClose = true) (h5 : e.hasGetLastError = true)
    (h6 : e.openStatus = 0) (h7 : e.closeStatus ≠ 0) :
    (probeMain e).stderrLines =
      [render (Report.error Stage.close (some e.closeStatus) "PassThruClose failed")] ∧
    (probeMain e).stdoutLines = [] ∧
    (probeMain e).exitCode = 1 ∧
    (probeMain e).getLastErrorCalled = false ∧
    (probeMain e).freeLibraryCalls = 1 := by
  unfold probeMain
  rw [if_neg (by omega), if_neg (by simp [h2]),
    if_neg (by simp [h3, h4, h5]), if_neg (by simp [h6]), if_pos h7]
  exact ⟨rfl, rfl, rfl, rfl, rfl⟩

/-- Witness for C5 at a concrete environment whose close call returns 7. -/
theorem close_failure_run_witness :
    closeFailEnv.openStatus = 0 ∧ closeFailEnv.closeStatus ≠ 0 ∧
    (probeMain closeFailEnv).stderrLines =
      [render (Report.error Stage.close (some closeFailEnv.closeStatus)
        "PassThruClose failed")] ∧
    (probeMain closeFailEnv).stdoutLines = [] ∧
    (probeMain closeFailEnv).exitCode = 1 ∧
    (probeMain closeFailEnv).getLastErrorCalled = false ∧
    (probeMain closeFailEnv).freeLibraryCalls = 1 :=
  ⟨rfl, by decide,
    close_failure_run closeFailEnv (by decide) rfl rfl rfl rfl rfl (by decide)⟩

/-- C6: when the library loads but any of the three required exports is
missing, the run writes to standard error exactly the symbols-stage report
with the fixed message, releases the handle once, exits with code 1, and
calls none of the driver entry points. -/
theorem missing_symbols_run (e : Env)
    (h1 : 2 ≤ e.argv.length) (h2 : e.loadOk = true)
    (h3 : (e.hasOpen && e.hasClose && e.hasGetLastError) = false) :
    (probeMain e).stderrLines =
      [render (Report.error Stage.symbols none "Required J2534 exports missing")] ∧
    (probeMain e).stdoutLines = [] ∧
    (probeMain e).freeLibraryCalls = 1 ∧
    (probeMain e).exitCode = 1 ∧
    (probeMain e).openCalled = false ∧
    (probeMain e).closeCalled = false ∧
    (probeMain e).getLastErrorCalled = false := by
  unfold probeMain
  rw [if_neg (by omega), if_neg (by simp [h2]), if_pos h3]
  exact ⟨rfl, rfl, rfl, rfl, rfl, rfl, rfl⟩

/-- Witness for C6 at a concrete environment missing PassThruClose. -/
theorem missing_symbols_run_witness :
    (noSymEnv.hasOpen && noSymEnv.hasClose && noSymEnv.hasGetLastError) = false ∧
    (probeMain noSymEnv).stderrLines =
      [render (Report.error Stage.symbols none "Required J2534 exports missing")] ∧
    (probeMain noSymEnv).stdoutLines = [] ∧
    (probeMain noSymEnv).freeLibraryCalls = 1 ∧
    (probeMain noSymEnv).exitCode = 1 ∧
    (probeMain noSymEnv).openCalled = false ∧
    (probeMain noSymEnv).closeCalled = false ∧
    (probeMain noSymEnv).getLastErrorCalled = false :=
  ⟨rfl, missing_symbols_run noSymEnv (by decide) rfl rfl⟩

/-- C7: when loading fails, the run writes to standard error exactly the
load-stage report whose message is the platform last-error text -- "none"
when no error was recorded, the translated text when translation succeeds,
and "unknown" otherwise -- exits with code 1, and never calls close. -/
theorem load_failure_run (e : Env)
    (h1 : 2 ≤ e.argv.length) (h2 : e.loadOk = false) :
    (probeMain e).stderrLines =
      [render (Report.error Stage.load none (GetLastWinError e))] ∧
    (probeMain e).stdoutLines = [] ∧
    (probeMain e).exitCode = 1 ∧
    (probeMain e).closeCalled = false ∧
    (e.winLastErr = 0 → GetLastWinError e = "none") ∧
    (e.winLastErr ≠ 0 → (e.fmtSize ≠ 0 ∧ e.fmtBufValid = true) →
      GetLastWinError e = e.fmtMsg) ∧
    (e.winLastErr ≠ 0 → ¬(e.fmtSize ≠ 0 ∧ e.fmtBufValid = true) →
      GetLastWinError e = "unknown") := by
  refine ⟨?_, ?_, ?_, ?_, ?_, ?_, ?_⟩
  · unfold probeMain
    rw [if_neg (by omega), if_pos h2]
  · unfold probeMain
    rw [if_neg (by omega), if_pos h2]
  · unfold probeMain
    rw [if_neg (by omega), if_pos h2]
  · unfold probeMain
    rw [if_neg (by omega), if_pos h2]
  · intro ha
    unfold GetLastWinError
    rw [if_pos ha]
  · intro ha hb
    unfold GetLastWinError
    rw [if_neg ha, if_pos hb]
  · intro ha hb
    unfold GetLastWinError
    rw [if_neg ha, if_neg hb]

/-- Witness for C7 at a concrete environment whose load fails with no
recorded platform error. -/
theorem load_failure_run_witness :
    loadFailEnv.loadOk = false ∧
    (probeMain loadFailEnv).stderrLines =
      [render (Report.error Stage.load none (GetLastWinError loadFailEnv))] ∧
    (probeMain loadFailEnv).exitCode = 1 ∧
    (probeMain loadFailEnv).closeCalled = false ∧
    GetLastWinError loadFailEnv = "none" :=
  ⟨rfl, (load_failure_run loadFailEnv (by decide) rfl).1,
    (load_failure_run loadFailEnv (by decide) rfl).2.2.1,
    (load_failure_run loadFailEnv (by decide) rfl).2.2.2.1,
    (load_failure_run loadFailEnv (by decide) rfl).2.2.2.2.1 rfl⟩

/-- C8: an invocation with no path argument writes the plain usage line to
standard error, nothing to standard output, and exits with code 2; and no
run with a path argument ever exits with code 2, so 2 is distinct from
every other exit code the program returns. -/
theorem usage_error_run (e : Env) (h : e.argv.length < 2) :
    (probeMain e).stderrLines = ["usage: j2534_native_probe <path-to-j2534-dll>"] ∧
    (probeMain e).stdoutLines = [] ∧
    (probeMain e).exitCode = 2 ∧
    ∀ f : Env, 2 ≤ f.argv.length → (probeMain f).exitCode ≠ 2 := by
  refine ⟨?_, ?_, ?_, ?_⟩
  · unfold probeMain; rw [if_pos h]; rfl
  · unfold probeMain; rw [if_pos h]
  · unfold probeMain; rw [if_pos h]
  · intro f hf
    unfold probeMain
    rw [if_neg (by omega)]
    split
    · simp
    · split
      · simp
      · split
        · simp
        · split
          · simp
          · simp

/-- Witness for C8 at a concrete invocation with only the program name. -/
theorem usage_error_run_witness :
    noArgEnv.argv.length < 2 ∧
    (probeMain noArgEnv).stderrLines =
      ["usage: j2534_native_probe <path-to-j2534-dll>"] ∧
    (probeMain noArgEnv).stdoutLines = [] ∧
    (probeMain noArgEnv).exitCode = 2 :=
  ⟨by decide, (usage_error_run noArgEnv (by decide)).1,
    (usage_error_run noArgEnv (by decide)).2.1,
    (usage_error_run noArgEnv (by decide)).2.2.1⟩

/-- C9: the probe is deterministic: two runs agreeing on the command line
and on every observable behaviour of the platform and the driver (load
outcome, symbol resolution, open and close return values, error texts)
produce identical reports on identical streams and identical exit codes. -/
theorem probe_deterministic (e₁ e₂ : Env)
    (h : e₁.argv = e₂.argv ∧ e₁.loadOk = e₂.loadOk ∧
      e₁.winLastErr = e₂.winLastErr ∧ e₁.fmtSize = e₂.fmtSize ∧
      e₁.fmtBufValid = e₂.fmtBufValid ∧ e₁.fmtMsg = e₂.fmtMsg ∧
      e₁.hasOpen = e₂.hasOpen ∧ e₁.hasClose = e₂.hasClose ∧
      e₁.hasGetLastError = e₂.hasGetLastError ∧
      e₁.openStatus = e₂.openStatus ∧ e₁.closeStatus = e₂.closeStatus ∧
      e₁.driverErrText = e₂.driverErrText) :
    probeMain e₁ = probeMain e₂ := by
  have he : e₁ = e₂ := by
    cases e₁
    cases e₂
    simp_all
  rw [he]

/-- Witness for C9: two textually identical environments yield equal runs. -/
theorem probe_deterministic_witness :
    probeMain goodEnv = probeMain goodEnv :=
  probe_deterministic goodEnv goodEnv
    ⟨rfl, rfl, rfl, rfl, rfl, rfl, rfl, rfl, rfl, rfl, rfl, rfl⟩

/-- C10: an invocation with two or more positional arguments is not treated
as a usage error: the run is identical to the invocation carrying only the
first positional argument, every further argument being ignored, and the
exit code is never 2. -/
theorem extra_args_ignored (e : Env) (prog p : String) (rest : List String)
    (h : e.argv = prog :: p :: rest) :
    probeMain e = probeMain { e with argv := [prog, p] } ∧
    (probeMain e).exitCode ≠ 2 := by
  obtain ⟨argv0, lo, we, fs, fb, fm, ho, hc, hg, os, cs, dt⟩ := e
  simp only at h
  subst h
  constructor
  · rfl
  · unfold probeMain
    rw [if_neg (by simp only [List.length_cons]; omega)]
    split
    · simp
    · split
      · simp
      · split
        · simp
        · split
          · simp
          · simp

/-- A well-behaved environment invoked with one extra trailing argument. -/
def extraArgEnv : Env :=
  { goodEnv with argv := ["j2534_native_probe", "driver.dll", "--verbose"] }

/-- Witness for C10 at a concrete invocation with a trailing extra argument. -/
theorem extra_args_ignored_witness :
    extraArgEnv.argv = "j2534_native_probe" :: "driver.dll" :: ["--verbose"] ∧
    (probeMain extraArgEnv =
      probeMain { extraArgEnv with argv := ["j2534_native_probe", "driver.dll"] } ∧
     (probeMain extraArgEnv).exitCode ≠ 2) :=
  ⟨rfl, extra_args_ignored extraArgEnv "j2534_native_probe" "driver.dll"
    ["--verbose"] rfl⟩

end J2534Probe
